import Mathlib

/-!
Shallow embedding of the MayoDownload upload pipeline.

Source files embedded:
* `src/Tin/media-shuttle.service.ts` — `MediaShuttleService`
  (`uploadToMediaShuttle`, `initializeBrowser`, `login`, `performUpload`,
  `waitForUploadCompletion`, `monitorTransferProgress`,
  `captureErrorScreenshot`, `cleanup`).
* `src/Tin/mayo-uploader.service.ts` — `MayoUploaderService.upload`.
* `src/unnamed/part_000` — the `mediaShuttle` configuration factory.

Browser/page effects (Playwright calls) are modelled by an explicit
environment record whose fields give the outcome of each external
interaction; thrown JS exceptions are modelled as `Except.error` carrying
the error's message string.  The filesystem used for staging is modelled
as a set of existing paths (a duplicate-free `List String`).
-/

/-! ## String helpers (JS `String.prototype.includes`) -/

/-- `startsWithChars hay pat` — `pat` is a leading run of `hay`. -/
def startsWithChars : List Char → List Char → Bool
  | _, [] => true
  | [], _ :: _ => false
  | h :: hs, p :: ps => h == p && startsWithChars hs ps

/-- `hasSubChars hay pat` — `pat` occurs contiguously somewhere in `hay`. -/
def hasSubChars : List Char → List Char → Bool
  | [], pat => pat.isEmpty
  | h :: t, pat => startsWithChars (h :: t) pat || hasSubChars t pat

/-- JS `hay.includes(pat)` on the characters of the strings. -/
def strIncludes (hay pat : String) : Bool :=
  hasSubChars hay.data pat.data

/-- JS `s.toLowerCase()` (ASCII range, per character). -/
def jsToLowerCase (s : String) : String :=
  ⟨s.data.map Char.toLower⟩

/-- JS `s.endsWith(suf)` on the characters of the strings. -/
def jsEndsWith (s suf : String) : Bool :=
  startsWithChars s.data.reverse suf.data.reverse

/-- Node `path.basename` for POSIX-style paths. -/
def basename (p : String) : String :=
  ((p.splitOn "/").getLast?).getD p

/-! ## Data model -/

/-- `FileData` from `file-downloader.interface` (fields as consumed by the
uploader): `data` is the byte buffer, `none` when absent — the code checks
`if (!file.data)`. -/
structure FileData where
  fileName : String
  filePath : String := ""
  type : String := ""
  data : Option (List Nat) := none
  updatedAt : Nat := 0
deriving Repr, DecidableEq

/-- `UploadResult` of `file-uploader.interface` (the per-file result the
coordinator returns); `skipped := none` models the field being absent. -/
structure PerFileResult where
  fileName : String
  success : Bool
  skipped : Option Bool := none
  errorMessage : Option String := none
deriving Repr, DecidableEq

/-- `UploadResult` of `media-shuttle.service.ts` (the batch-level attempt
result of `uploadToMediaShuttle`). -/
structure AttemptResult where
  success : Bool
  message : String
  uploadedFiles : Option (List String) := none
  error : Option String := none
deriving Repr, DecidableEq

/-- `MediaShuttleConfig` from `media-shuttle.service.ts`. -/
structure MediaShuttleConfig where
  url : String
  username : String
  password : String
  recipientEmail : String
  headless : Option Bool := none
  timeout : Option Nat := none
deriving Repr, DecidableEq

/-- Options passed to `chromium.launch`. -/
structure LaunchOptions where
  headless : Bool
  args : List String
deriving Repr, DecidableEq

/-- The launch options built in `initializeBrowser` (lines 81–90): the
`headless` field is the literal `false`, whatever the config says. -/
def chromiumLaunchOptions (_config : MediaShuttleConfig) : LaunchOptions :=
  { headless := false
    args := ["--no-sandbox", "--disable-setuid-sandbox",
             "--disable-dev-shm-usage", "--disable-web-security",
             "--allow-running-insecure-content"] }

/-- The `mediaShuttle` configuration factory (`src/unnamed/part_000`):
how the raw `MEDIA_SHUTTLE_HEADLESS` environment string becomes the
`headless` flag. -/
def envHeadlessFlag (raw : Option String) : Bool :=
  raw == some "true"

/-! ## MediaShuttleService — state, environment, events -/

/-- The service's mutable fields `this.browser` / `this.context`
(opaque handles modelled as `Nat`). -/
structure MSState where
  browser : Option Nat := none
  context : Option Nat := none
deriving Repr, DecidableEq

/-- Observable actions of one `uploadToMediaShuttle` run. -/
inductive MSEvent
  /-- `captureErrorScreenshot` was invoked. -/
  | screenshotAttempt
  /-- `page.screenshot` completed and the artifact was written. -/
  | screenshotTaken
  /-- `cleanup` was invoked. -/
  | cleanupCall
  /-- `this.context.close()` completed. -/
  | contextClosed
  /-- `this.browser.close()` completed. -/
  | browserClosed
deriving Repr, DecidableEq

/-- Observable page state driving `waitForUploadCompletion`:
whether `#transferProgressDetails` appears within its 10s bound, the
successive `#topText` contents seen while `monitorTransferProgress` polls
within its 300s bound (`none` = element absent), and the text of the
first error-indicating element (`none` = none found / `textContent`
rejected). -/
structure MonitorEnv where
  progressDetailsAppears : Bool
  statusTrace : List (Option String)
  errorText : Option String
deriving Repr, DecidableEq

/-- Outcomes of every external (Playwright / fs) interaction of one
`uploadToMediaShuttle` run.  `Except.error s` models the call throwing an
exception whose message is `s`. -/
structure MSEnv where
  /-- `fs.existsSync` for each input path. -/
  fileExists : String → Bool
  /-- `chromium.launch(options)`: the browser handle, or a thrown error. -/
  launch : LaunchOptions → Except String Nat
  /-- `browser.newContext(...)`. -/
  newContext : Except String Nat
  /-- `context.newPage()`. -/
  newPage : Except String Nat
  /-- `page.goto(config.url)`. -/
  gotoUrl : Except String Unit
  /-- Net outcome of the login form interactions (fills, clicks, waits)
  of `login` up to the URL check. -/
  loginSteps : Except String Unit
  /-- `page.url()` after the login form settles. -/
  currentUrl : String
  /-- Net outcome of the conditional DOM interactions of `performUpload`
  before `waitForUploadCompletion` (absent controls are skipped there, so
  only a thrown interaction surfaces). -/
  uploadInteractions : Except String Unit
  /-- Page state seen by the completion monitor. -/
  monitor : MonitorEnv
  /-- `page.screenshot(...)` (and the `mkdirSync` before it). -/
  screenshot : Except String Unit
  /-- `this.context.close()`. -/
  closeContext : Except String Unit
  /-- `this.browser.close()`. -/
  closeBrowser : Except String Unit

/-! ## Completion Monitor -/

/-- The predicate evaluated by `page.waitForFunction` on each poll:
`#topText` exists and its lower-cased text contains a terminal marker. -/
def topTextCompleted : Option String → Bool
  | none => false
  | some t =>
    let c := jsToLowerCase t
    strIncludes c "completed" || strIncludes c "success" ||
      strIncludes c "finished"

/-- Index of the first poll at which the `waitForFunction` predicate
holds, if any poll within the bound satisfies it. -/
def firstCompletedIdx : List (Option String) → Option Nat
  | [] => none
  | o :: rest =>
    if topTextCompleted o then some 0 else (firstCompletedIdx rest).map (· + 1)

/-- `monitorTransferProgress` (lines 224–249): poll `#topText` (bounded by
the 300s timeout, i.e. the end of the trace) for a terminal marker. -/
def monitorTransferProgress (m : MonitorEnv) : Except String Unit :=
  match firstCompletedIdx m.statusTrace with
  | some _ => .ok ()
  | none => .error "page.waitForFunction: Timeout 300000ms exceeded"

/-- `waitForUploadCompletion` (lines 188–222): primary path waits for
`#transferProgressDetails` then monitors `#topText`; on any failure of
that try-block, the fallback inspects the first error-ish element's text
and throws only when that text (lower-cased) contains "error". -/
def waitForUploadCompletion (m : MonitorEnv) : Except String Unit :=
  let tryBody : Except String Unit :=
    if m.progressDetailsAppears then monitorTransferProgress m
    else .error "page.waitForSelector: Timeout 10000ms exceeded"
  match tryBody with
  | .ok _ => .ok ()
  | .error _ =>
    match m.errorText with
    | some t =>
      if strIncludes (jsToLowerCase t) "error" then
        .error ("Transfer failed: " ++ t)
      else .ok ()
    | none => .ok ()

/-! ## Session Resource Manager -/

/-- `initializeBrowser` (lines 78–105): launch with the fixed options,
store the handles on the service state as they are created, open a page,
navigate.  Returns the page handle or the first thrown error, together
with the state as mutated so far. -/
def initializeBrowser (env : MSEnv) (config : MediaShuttleConfig)
    (s : MSState) : Except String Nat × MSState :=
  match env.launch (chromiumLaunchOptions config) with
  | .error e => (.error e, s)
  | .ok b =>
    let s1 : MSState := { s with browser := some b }
    match env.newContext with
    | .error e => (.error e, s1)
    | .ok c =>
      let s2 : MSState := { s1 with context := some c }
      match env.newPage with
      | .error e => (.error e, s2)
      | .ok p =>
        match env.gotoUrl with
        | .error e => (.error e, s2)
        | .ok _ => (.ok p, s2)

/-- The try-block of `cleanup` (lines 270–284): close context then
browser, nulling each field after its close; a thrown close aborts the
rest of the block.  Returns the state reached, the close events that
completed, and the error the block raised (if any). -/
def cleanupBody (env : MSEnv) (s : MSState) :
    MSState × List MSEvent × Option String :=
  match s.context with
  | some _ =>
    match env.closeContext with
    | .error e => (s, [], some e)
    | .ok _ =>
      let s1 : MSState := { s with context := none }
      match s1.browser with
      | some _ =>
        match env.closeBrowser with
        | .error e => (s1, [.contextClosed], some e)
        | .ok _ => ({ s1 with browser := none },
                    [.contextClosed, .browserClosed], none)
      | none => (s1, [.contextClosed], none)
  | none =>
    match s.browser with
    | some _ =>
      match env.closeBrowser with
      | .error e => (s, [], some e)
      | .ok _ => ({ s with browser := none }, [.browserClosed], none)
    | none => (s, [], none)

/-- `cleanup`: the try-block wrapped in `catch (error) { log }` — any
close-time error is swallowed, so no exception leaves `cleanup`. -/
def cleanup (env : MSEnv) (s : MSState) : MSState × List MSEvent :=
  let r := cleanupBody env s
  (r.1, .cleanupCall :: r.2.1)

/-! ## Authentication, Initiation, Diagnostic Capture -/

/-- `login` (lines 107–143): run the form steps, then fail if the URL
still denotes a login page; the outer catch rewraps any error as
`Login failed: …`. -/
def login (env : MSEnv) : Except String Unit :=
  let body : Except String Unit :=
    match env.loginSteps with
    | .error e => .error e
    | .ok _ =>
      if strIncludes env.currentUrl "login" || strIncludes env.currentUrl "signin"
      then .error "Login failed - still on login page"
      else .ok ()
  match body with
  | .ok _ => .ok ()
  | .error e => .error ("Login failed: " ++ e)

/-- `performUpload` (lines 145–186): conditional DOM interactions then
`waitForUploadCompletion`; the outer catch rewraps any error as
`Upload failed: …`. -/
def performUpload (env : MSEnv) : Except String Unit :=
  let body : Except String Unit :=
    match env.uploadInteractions with
    | .error e => .error e
    | .ok _ => waitForUploadCompletion env.monitor
  match body with
  | .ok _ => .ok ()
  | .error e => .error ("Upload failed: " ++ e)

/-- `captureErrorScreenshot` (lines 251–268): best-effort — its own
try/catch swallows any screenshot failure, so it only reports which
events happened. -/
def captureErrorScreenshot (env : MSEnv) : List MSEvent :=
  match env.screenshot with
  | .ok _ => [.screenshotAttempt, .screenshotTaken]
  | .error _ => [.screenshotAttempt]

/-! ## Transfer Orchestrator -/

/-- Result + final state + event trace of one `uploadToMediaShuttle`. -/
structure MSOutcome where
  result : AttemptResult
  state : MSState
  events : List MSEvent
deriving Repr

/-- The failed `AttemptResult` built in the catch-block of
`uploadToMediaShuttle` (lines 68–72). -/
def failedAttempt (e : String) : AttemptResult :=
  { success := false, message := "Failed to upload to Media Shuttle",
    error := some e }

/-- `uploadToMediaShuttle` (lines 31–76): existence check, browser
initialization, login, upload, monitor — any thrown error is caught,
a screenshot is attempted iff `page` was assigned, and the finally-block
runs `cleanup` on every path.  Never throws past this boundary. -/
def uploadToMediaShuttle (env : MSEnv) (filePaths : List String)
    (config : MediaShuttleConfig) (s0 : MSState) : MSOutcome :=
  if !(filePaths.all env.fileExists) then
    -- BadRequestException thrown before `page` is set: no screenshot
    let c := cleanup env s0
    { result := failedAttempt ("Files not found: " ++ String.intercalate ", " filePaths)
      state := c.1, events := c.2 }
  else
    match initializeBrowser env config s0 with
    | (.error e, s1) =>
      -- `page` still null: the catch skips the screenshot
      let c := cleanup env s1
      { result := failedAttempt e, state := c.1, events := c.2 }
    | (.ok _page, s1) =>
      match login env with
      | .error e =>
        let shot := captureErrorScreenshot env
        let c := cleanup env s1
        { result := failedAttempt e, state := c.1, events := shot ++ c.2 }
      | .ok _ =>
        match performUpload env with
        | .error e =>
          let shot := captureErrorScreenshot env
          let c := cleanup env s1
          { result := failedAttempt e, state := c.1, events := shot ++ c.2 }
        | .ok _ =>
          let c := cleanup env s1
          { result := { success := true
                        message := "File uploaded to Media Shuttle successfully"
                        uploadedFiles := some (filePaths.map basename) }
            state := c.1, events := c.2 }

/-! ## Batch Upload Coordinator (`MayoUploaderService.upload`) -/

/-- The eligibility predicate (line 28): name ends in `_Report.docx`. -/
def isReportFile (f : FileData) : Bool :=
  jsEndsWith f.fileName "_Report.docx"

/-- The always-successful result for a skipped (ineligible) file
(lines 46–50 and 137–143). -/
def skippedResult (f : FileData) : PerFileResult :=
  { fileName := f.fileName, success := true, skipped := some true }

/-- The per-file result for an eligible file after a successful batch
(lines 87–92). -/
def uploadedResult (f : FileData) : PerFileResult :=
  { fileName := f.fileName, success := true }

/-- The per-file result for an eligible file after a failed batch
(lines 98–104 / 112–118). -/
def failedResult (msg : String) (f : FileData) : PerFileResult :=
  { fileName := f.fileName, success := false, errorMessage := some msg }

/-- The staged temp path (lines 69–70): `path.join(os.tmpdir(), fileName)`
— deterministic, no per-invocation component. -/
def tempPathFor (tmpdir : String) (f : FileData) : String :=
  tmpdir ++ "/" ++ f.fileName

/-- `fs.writeFileSync` on the path-set filesystem model. -/
def fsWrite (p : String) (fs : List String) : List String :=
  if fs.contains p then fs else p :: fs

/-- `fs.unlinkSync` on the path-set filesystem model. -/
def fsUnlink (p : String) (fs : List String) : List String :=
  fs.filter (fun q => q != p)

/-- The staging loop (lines 64–76): write each eligible file's bytes to
its temp path, recording the created paths; a file with no `data` throws
at once (no later file is staged).  Returns the paths created, the
filesystem reached, and the thrown error if any. -/
def stageFiles (tmpdir : String) (fs : List String) :
    List FileData → List String × List String × Option String
  | [] => ([], fs, none)
  | f :: rest =>
    match f.data with
    | none => ([], fs, some ("File data is missing for " ++ f.fileName))
    | some _ =>
      let p := tempPathFor tmpdir f
      let r := stageFiles tmpdir (fsWrite p fs) rest
      (p :: r.1, r.2.1, r.2.2)

/-- The finally-block (lines 119–135): delete each created temp path if it
still exists (each deletion best-effort; deletion errors are swallowed). -/
def cleanupTemp (paths : List String) (fs : List String) : List String :=
  match paths with
  | [] => fs
  | p :: rest => cleanupTemp rest (if fs.contains p then fsUnlink p fs else fs)

/-- What one `upload` call produced: the per-file results, the staging
filesystem afterwards, whether `uploadToMediaShuttle` (and hence any
browser Session) was ever invoked, and the temp paths staged. -/
structure UploadOutcome where
  results : List PerFileResult
  fsFinal : List String
  attemptInvoked : Bool
  stagedPaths : List String
deriving Repr, DecidableEq

/-- `MayoUploaderService.upload` (lines 25–151).  The portal call
`mediaShuttleService.uploadToMediaShuttle(tempFilePaths, config)` is the
parameter `attempt` (`.error e` models it throwing — its result when the
real service is plugged in, which never throws, is always `.ok`); the
resolved configuration is assumed present (§6: the core receives an
already-resolved structure). -/
def upload (attempt : List String → Except String AttemptResult)
    (tmpdir : String) (fs0 : List String) (files : List FileData) :
    UploadOutcome :=
  let reportFiles := files.filter isReportFile
  let skippedFiles := files.filter (fun f => !isReportFile f)
  if reportFiles.isEmpty then
    { results := skippedFiles.map skippedResult, fsFinal := fs0
      attemptInvoked := false, stagedPaths := [] }
  else
    let st := stageFiles tmpdir fs0 reportFiles
    let tempFilePaths := st.1
    match st.2.2 with
    | some msg =>
      -- staging threw: caught at line 107, every eligible file fails;
      -- the finally-block removes the temp files created so far
      { results := reportFiles.map (failedResult msg)
                     ++ skippedFiles.map skippedResult
        fsFinal := cleanupTemp tempFilePaths st.2.1
        attemptInvoked := false, stagedPaths := tempFilePaths }
    | none =>
      match attempt tempFilePaths with
      | .ok r =>
        if r.success then
          { results := reportFiles.map uploadedResult
                         ++ skippedFiles.map skippedResult
            fsFinal := cleanupTemp tempFilePaths st.2.1
            attemptInvoked := true, stagedPaths := tempFilePaths }
        else
          { results := reportFiles.map (failedResult (r.error.getD "Batch upload failed"))
                         ++ skippedFiles.map skippedResult
            fsFinal := cleanupTemp tempFilePaths st.2.1
            attemptInvoked := true, stagedPaths := tempFilePaths }
      | .error e =>
        { results := reportFiles.map (failedResult e)
                       ++ skippedFiles.map skippedResult
          fsFinal := cleanupTemp tempFilePaths st.2.1
          attemptInvoked := true, stagedPaths := tempFilePaths }

/-- The staged path of every eligible file of a batch (what the staging
loop produces when every eligible file carries data). -/
def stagedPathsOf (tmpdir : String) (files : List FileData) : List String :=
  (files.filter isReportFile).map (tempPathFor tmpdir)

/-! ## Concrete fixtures used to evaluate the model -/

/-- A resolved configuration. -/
def cfg0 : MediaShuttleConfig :=
  { url := "https://mayo.mediashuttle.com", username := "user"
    password := "pw", recipientEmail := "to@mayo.edu" }

/-- Monitor state: progress details appear and the status text reaches a
terminal marker. -/
def mEnvCompleted : MonitorEnv :=
  { progressDetailsAppears := true
    statusTrace := [some "Uploading 50%", some "Transfer Completed"]
    errorText := none }

/-- Monitor state: no progress details, and an error element whose text
mentions "error". -/
def mEnvError : MonitorEnv :=
  { progressDetailsAppears := false, statusTrace := []
    errorText := some "upload error occurred" }

/-- Monitor state: no progress details and no error element. -/
def mEnvSilent : MonitorEnv :=
  { progressDetailsAppears := false, statusTrace := [], errorText := none }

/-- An environment in which every external interaction succeeds. -/
def envBase : MSEnv :=
  { fileExists := fun _ => true
    launch := fun _ => .ok 1
    newContext := .ok 2
    newPage := .ok 3
    gotoUrl := .ok ()
    loginSteps := .ok ()
    currentUrl := "https://mayo.mediashuttle.com/portal/home"
    uploadInteractions := .ok ()
    monitor := mEnvCompleted
    screenshot := .ok ()
    closeContext := .ok ()
    closeBrowser := .ok () }

/-- An environment whose login form interaction throws. -/
def envLoginFail : MSEnv :=
  { envBase with loginSteps := .error "Timeout 30000ms exceeded" }

/-- An eligible file carrying data. -/
def fRep : FileData := { fileName := "x_Report.docx", data := some [1, 2] }

/-- A second eligible file carrying data. -/
def fRep2 : FileData := { fileName := "y_Report.docx", data := some [3] }

/-- An ineligible file. -/
def fTxt : FileData := { fileName := "notes.txt", data := some [4] }

/-- An eligible file with no byte content. -/
def fNoData : FileData := { fileName := "z_Report.docx", data := none }

/-- A portal attempt that reports batch success. -/
def attemptOk : List String → Except String AttemptResult := fun ps =>
  .ok { success := true, message := "File uploaded to Media Shuttle successfully"
        uploadedFiles := some (ps.map basename) }

/-- A portal attempt that reports batch failure. -/
def attemptFail : List String → Except String AttemptResult := fun _ =>
  .ok { success := false, message := "Failed to upload to Media Shuttle"
        error := some "Login failed: Login failed - still on login page" }

/-- Two same-named eligible files in one batch. -/
def dupBatchA : List FileData :=
  [{ fileName := "x_Report.docx", data := some [1] },
   { fileName := "x_Report.docx", data := some [2] }]

/-- A second, distinct invocation whose batch shares the file name
`x_Report.docx` with `dupBatchA`. -/
def dupBatchB : List FileData :=
  [{ fileName := "x_Report.docx", data := some [9] },
   { fileName := "other.txt", data := some [] }]

/-! # Theorems -/

/-! ## Completion Monitor lemmas -/

theorem firstCompletedIdx_isSome_of_mem {tr : List (Option String)}
    {o : Option String} (hmem : o ∈ tr) (hc : topTextCompleted o = true) :
    ∃ i, firstCompletedIdx tr = some i := by
  induction tr with
  | nil => cases hmem
  | cons hd tl ih =>
    by_cases hhd : topTextCompleted hd = true
    · exact ⟨0, by simp [firstCompletedIdx, hhd]⟩
    · rcases List.mem_cons.mp hmem with heq | htl
      · exact absurd (heq ▸ hc) hhd
      · rcases ih htl with ⟨i, hi⟩
        exact ⟨i + 1, by simp [firstCompletedIdx, hhd, hi]⟩

theorem firstCompletedIdx_least {tr : List (Option String)} {i : Nat}
    (h : firstCompletedIdx tr = some i) :
    topTextCompleted (tr.getD i none) = true ∧
      ∀ j < i, topTextCompleted (tr.getD j none) = false := by
  induction tr generalizing i with
  | nil => simp [firstCompletedIdx] at h
  | cons hd tl ih =>
    by_cases hhd : topTextCompleted hd = true
    · simp [firstCompletedIdx, hhd] at h
      subst h
      exact ⟨by simpa using hhd, fun j hj => absurd hj (by omega)⟩
    · simp [firstCompletedIdx, hhd] at h
      rcases h with ⟨k, hk, rfl⟩
      rcases ih hk with ⟨h1, h2⟩
      refine ⟨by simpa using h1, ?_⟩
      intro j hj
      cases j with
      | zero => simpa using (Bool.not_eq_true _).mp hhd
      | succ j => simpa using h2 j (by omega)

/-! ## Claim theorems C4, C5, C10 -/

/-- C4: `uploadToMediaShuttle` never throws past its boundary: for every
environment (covering failures at the existence check, acquisition,
login, initiation and monitoring, including thrown exceptions) it returns
a single `AttemptResult`; any exception is converted into
`success := false` with its message in `error`, and on success the result
is `success := true` carrying the uploaded file names. -/
theorem uploadToMediaShuttle_total_attemptResult :
    ∀ (env : MSEnv) (fps : List String) (cfg : MediaShuttleConfig)
      (s0 : MSState),
      ((uploadToMediaShuttle env fps cfg s0).result.success = true ∧
        (uploadToMediaShuttle env fps cfg s0).result.message
          = "File uploaded to Media Shuttle successfully" ∧
        (uploadToMediaShuttle env fps cfg s0).result.uploadedFiles
          = some (fps.map basename) ∧
        (uploadToMediaShuttle env fps cfg s0).result.error = none) ∨
      ((uploadToMediaShuttle env fps cfg s0).result.success = false ∧
        (uploadToMediaShuttle env fps cfg s0).result.message
          = "Failed to upload to Media Shuttle" ∧
        ∃ m, (uploadToMediaShuttle env fps cfg s0).result.error = some m) := by
  intro env fps cfg s0
  unfold uploadToMediaShuttle
  split
  · right; exact ⟨rfl, rfl, _, rfl⟩
  · split
    · right; exact ⟨rfl, rfl, _, rfl⟩
    · cases hl : login env with
      | error e => right; simp [failedAttempt]
      | ok _ =>
        cases hp : performUpload env with
        | error e => right; simp [failedAttempt]
        | ok _ => left; simp

/-- C5: the Completion Monitor two-tier policy.  Primary path (progress
details appear): it returns normally as soon as — at the first poll at
which — the status text contains a terminal marker within the bound.
Fallback path (progress details never appear within their bound): it
fails with the error element's text exactly when that text mentions
"error", and returns normally otherwise (including when no error element
is found). -/
theorem waitForUploadCompletion_policy :
    ∀ m : MonitorEnv,
      (m.progressDetailsAppears = true →
        (∃ o ∈ m.statusTrace, topTextCompleted o = true) →
          waitForUploadCompletion m = .ok () ∧
          ∃ i, firstCompletedIdx m.statusTrace = some i ∧
            topTextCompleted (m.statusTrace.getD i none) = true ∧
            ∀ j < i, topTextCompleted (m.statusTrace.getD j none) = false) ∧
      (m.progressDetailsAppears = false →
        (∀ t, m.errorText = some t →
          strIncludes (jsToLowerCase t) "error" = true →
          waitForUploadCompletion m = .error ("Transfer failed: " ++ t)) ∧
        (∀ t, m.errorText = some t →
          strIncludes (jsToLowerCase t) "error" = false →
          waitForUploadCompletion m = .ok ()) ∧
        (m.errorText = none → waitForUploadCompletion m = .ok ())) := by
  intro m
  constructor
  · intro hpd ⟨o, hmem, hc⟩
    rcases firstCompletedIdx_isSome_of_mem hmem hc with ⟨i, hi⟩
    refine ⟨?_, i, hi, firstCompletedIdx_least hi⟩
    simp [waitForUploadCompletion, hpd, monitorTransferProgress, hi]
  · intro hpd
    refine ⟨?_, ?_, ?_⟩
    · intro t ht herr
      simp [waitForUploadCompletion, hpd, ht, herr]
    · intro t ht herr
      simp [waitForUploadCompletion, hpd, ht, herr]
    · intro ht
      simp [waitForUploadCompletion, hpd, ht]

/-- Witness for C5: the three §8 scenarios, instantiated concretely. -/
theorem waitForUploadCompletion_policy_witness :
    waitForUploadCompletion mEnvCompleted = .ok () ∧
    waitForUploadCompletion mEnvError
      = .error "Transfer failed: upload error occurred" ∧
    waitForUploadCompletion mEnvSilent = .ok () :=
  ⟨((waitForUploadCompletion_policy mEnvCompleted).1 rfl
      ⟨some "Transfer Completed", by decide, by decide⟩).1,
   ((waitForUploadCompletion_policy mEnvError).2 rfl).1
     "upload error occurred" rfl (by decide),
   ((waitForUploadCompletion_policy mEnvSilent).2 rfl).2.2 rfl⟩

/-- C10: the browser is always launched with `headless := false` — the
`headless` flag recognized by the configuration surface
(`MEDIA_SHUTTLE_HEADLESS` / `config.headless`) has no effect on the
launch options or on `initializeBrowser`. -/
theorem chromiumLaunch_headless_ignored :
    ∀ (env : MSEnv) (cfg : MediaShuttleConfig) (s : MSState)
      (flag : Option Bool) (raw : Option String),
      (chromiumLaunchOptions cfg).headless = false ∧
      chromiumLaunchOptions { cfg with headless := flag }
        = chromiumLaunchOptions cfg ∧
      initializeBrowser env { cfg with headless := flag } s
        = initializeBrowser env cfg s ∧
      chromiumLaunchOptions { cfg with headless := some (envHeadlessFlag raw) }
        = chromiumLaunchOptions cfg := by
  intro env cfg s flag raw
  exact ⟨rfl, rfl, rfl, rfl⟩

/-! ## Environment-update lemmas (fields a step never reads) -/

theorem initializeBrowser_update_close (env : MSEnv) (cfg : MediaShuttleConfig)
    (s : MSState) (cc cb : Except String Unit) :
    initializeBrowser { env with closeContext := cc, closeBrowser := cb } cfg s
      = initializeBrowser env cfg s := rfl

theorem login_update_close (env : MSEnv) (cc cb : Except String Unit) :
    login { env with closeContext := cc, closeBrowser := cb } = login env := rfl

theorem performUpload_update_close (env : MSEnv) (cc cb : Except String Unit) :
    performUpload { env with closeContext := cc, closeBrowser := cb }
      = performUpload env := rfl

theorem captureErrorScreenshot_update_close (env : MSEnv)
    (cc cb : Except String Unit) :
    captureErrorScreenshot { env with closeContext := cc, closeBrowser := cb }
      = captureErrorScreenshot env := rfl

theorem initializeBrowser_update_shot (env : MSEnv) (cfg : MediaShuttleConfig)
    (s : MSState) (sc : Except String Unit) :
    initializeBrowser { env with screenshot := sc } cfg s
      = initializeBrowser env cfg s := rfl

theorem login_update_shot (env : MSEnv) (sc : Except String Unit) :
    login { env with screenshot := sc } = login env := rfl

theorem performUpload_update_shot (env : MSEnv) (sc : Except String Unit) :
    performUpload { env with screenshot := sc } = performUpload env := rfl

/-! ## Cleanup lemmas -/

theorem cleanup_count_one (env : MSEnv) (s : MSState) :
    (cleanup env s).2.count MSEvent.cleanupCall = 1 := by
  unfold cleanup cleanupBody
  rcases s with ⟨br, ctx⟩
  rcases hcc : env.closeContext <;> rcases hcb : env.closeBrowser <;>
    cases ctx <;> cases br <;> simp [hcc, hcb]

theorem shot_count_zero (env : MSEnv) :
    (captureErrorScreenshot env).count MSEvent.cleanupCall = 0 := by
  unfold captureErrorScreenshot
  rcases hs : env.screenshot <;> simp [hs]

/-- C6: session teardown runs exactly once per attempt (the `finally`
block), whether the attempt fails at the existence check, at acquisition,
at any later step, or completes normally; close-time errors are swallowed
inside `cleanup` and never change the returned result; and `cleanup` is
safe on a never-initialized Session (both handles null: it touches
nothing) and on a partially-populated one (browser only: it never touches
the null context). -/
theorem cleanup_exactly_once_and_safe :
    ∀ (env : MSEnv) (fps : List String) (cfg : MediaShuttleConfig)
      (s0 : MSState) (b : Nat),
      ((uploadToMediaShuttle env fps cfg s0).events.count .cleanupCall = 1) ∧
      (∀ cc cb : Except String Unit,
        (uploadToMediaShuttle { env with closeContext := cc, closeBrowser := cb }
            fps cfg s0).result
          = (uploadToMediaShuttle env fps cfg s0).result) ∧
      (cleanup env { browser := none, context := none }
        = ({ browser := none, context := none }, [.cleanupCall])) ∧
      (MSEvent.contextClosed ∉
        (cleanup env { browser := some b, context := none }).2) := by
  intro env fps cfg s0 b
  refine ⟨?_, ?_, rfl, ?_⟩
  · simp only [uploadToMediaShuttle]
    split
    · simpa using cleanup_count_one env s0
    · split
      · simpa using cleanup_count_one env _
      · cases hl : login env with
        | error e => simp [List.count_append, cleanup_count_one, shot_count_zero]
        | ok _ =>
          cases hp : performUpload env with
          | error e =>
            simp [List.count_append, cleanup_count_one, shot_count_zero]
          | ok _ => simpa using cleanup_count_one env _
  · intro cc cb
    simp only [uploadToMediaShuttle, initializeBrowser_update_close,
               login_update_close, performUpload_update_close,
               captureErrorScreenshot_update_close]
    split
    · rfl
    · split <;> [rfl; skip]
      cases hl : login env with
      | error e => rfl
      | ok _ => cases hp : performUpload env with
        | error e => rfl
        | ok _ => rfl
  · unfold cleanup cleanupBody
    rcases hcb : env.closeBrowser <;> simp [hcb]

/-- C9 counterexample: a failing attempt (the input file does not exist,
so `BadRequestException` is thrown before `page` is assigned) whose trace
contains no Diagnostic Capture invocation — `captureErrorScreenshot` is
guarded by `if (page)` and is skipped on failures before page
acquisition, so capture is not invoked on every failure. -/
theorem capture_skipped_before_page :
    (uploadToMediaShuttle { envBase with fileExists := fun _ => false }
        ["/tmp/x_Report.docx"] cfg0 {}).result.success = false ∧
    MSEvent.screenshotAttempt ∉
      (uploadToMediaShuttle { envBase with fileExists := fun _ => false }
        ["/tmp/x_Report.docx"] cfg0 {}).events := by
  constructor
  · rfl
  · decide

/-- C9 (amended): on every failure occurring after the page was acquired
(login, interaction, or monitor), the orchestrator invokes Diagnostic
Capture before building the failed `AttemptResult` (the capture events
lead the trace), and a failure of the capture itself is caught and never
replaces the original attempt failure — the result carries the original
error whatever the screenshot outcome.  Failures before page acquisition
build the failed result without invoking capture. -/
theorem capture_on_post_page_failure (env : MSEnv) (fps : List String)
    (cfg : MediaShuttleConfig) (s0 : MSState) (e : String) (p : Nat)
    (s1 : MSState)
    (hfe : fps.all env.fileExists = true)
    (hinit : initializeBrowser env cfg s0 = (.ok p, s1))
    (hfail : login env = .error e ∨
             (login env = .ok () ∧ performUpload env = .error e)) :
    (uploadToMediaShuttle env fps cfg s0).result = failedAttempt e ∧
    (∃ tl, (uploadToMediaShuttle env fps cfg s0).events
        = .screenshotAttempt :: tl) ∧
    (∀ sc, (uploadToMediaShuttle { env with screenshot := sc } fps cfg s0).result
        = failedAttempt e) := by
  have hshape : ∀ sc : Except String Unit,
      (uploadToMediaShuttle { env with screenshot := sc } fps cfg s0).result
        = failedAttempt e := by
    intro sc
    simp only [uploadToMediaShuttle, initializeBrowser_update_shot,
               login_update_shot, performUpload_update_shot]
    rcases hfail with hl | ⟨hl, hp⟩ <;> simp [hfe, hinit, hl]
    simp [hp]
  refine ⟨?_, ?_, hshape⟩
  · simp only [uploadToMediaShuttle]
    rcases hfail with hl | ⟨hl, hp⟩ <;> simp [hfe, hinit, hl]
    simp [hp]
  · simp only [uploadToMediaShuttle]
    rcases hfail with hl | ⟨hl, hp⟩ <;> simp [hfe, hinit, hl]
    · cases hs : env.screenshot <;> simp [captureErrorScreenshot, hs]
    · simp [hp]
      cases hs : env.screenshot <;> simp [captureErrorScreenshot, hs]

/-- Witness for the amended C9 at a concrete login failure. -/
theorem capture_on_post_page_failure_witness :
    (uploadToMediaShuttle envLoginFail ["/tmp/x_Report.docx"] cfg0 {}).result
      = failedAttempt "Login failed: Timeout 30000ms exceeded" ∧
    ∃ tl, (uploadToMediaShuttle envLoginFail ["/tmp/x_Report.docx"] cfg0 {}).events
      = MSEvent.screenshotAttempt :: tl :=
  ⟨(capture_on_post_page_failure envLoginFail ["/tmp/x_Report.docx"] cfg0 {}
      "Login failed: Timeout 30000ms exceeded" 3
      { browser := some 1, context := some 2 } rfl rfl (Or.inl rfl)).1,
   (capture_on_post_page_failure envLoginFail ["/tmp/x_Report.docx"] cfg0 {}
      "Login failed: Timeout 30000ms exceeded" 3
      { browser := some 1, context := some 2 } rfl rfl (Or.inl rfl)).2.1⟩

theorem stageFiles_paths_takeWhile (tmpdir : String) (l : List FileData) :
    ∀ fs, (stageFiles tmpdir fs l).1
      = (l.takeWhile (fun f => f.data.isSome)).map (tempPathFor tmpdir) := by
  induction l with
  | nil => intro fs; rfl
  | cons f rest ih =>
    intro fs
    cases hd : f.data with
    | none => simp [stageFiles, hd, List.takeWhile_cons]
    | some d => simp [stageFiles, hd, List.takeWhile_cons, ih]

theorem stageFiles_all_data (tmpdir : String) (l : List FileData)
    (h : ∀ f ∈ l, f.data.isSome) :
    ∀ fs, (stageFiles tmpdir fs l).1 = l.map (tempPathFor tmpdir) ∧
      (stageFiles tmpdir fs l).2.2 = none := by
  induction l with
  | nil => intro fs; exact ⟨rfl, rfl⟩
  | cons f rest ih =>
    intro fs
    have hf : f.data.isSome := h f (List.mem_cons_self f rest)
    rcases hd : f.data with _ | d
    · rw [hd] at hf; cases hf
    · have := ih (fun g hg => h g (List.mem_cons_of_mem f hg))
      simp [stageFiles, hd, this]

theorem stageFiles_first_missing (tmpdir : String) (l : List FileData)
    (g : FileData) (h : l.find? (fun f => f.data.isNone) = some g) :
    ∀ fs, (stageFiles tmpdir fs l).2.2
      = some ("File data is missing for " ++ g.fileName) := by
  induction l with
  | nil => simp at h
  | cons f rest ih =>
    intro fs
    rcases hd : f.data with _ | d
    · rw [List.find?_cons] at h
      simp [hd] at h
      subst h
      simp [stageFiles, hd]
    · rw [List.find?_cons] at h
      simp [hd] at h
      simp [stageFiles, hd, ih h]

theorem mem_of_mem_cleanupTemp (l : List String) :
    ∀ fs p, p ∈ cleanupTemp l fs → p ∈ fs := by
  induction l with
  | nil => intro fs p h; exact h
  | cons q rest ih =>
    intro fs p h
    have h1 := ih _ p h
    by_cases hc : fs.contains q
    · rw [if_pos hc] at h1
      exact (List.mem_filter.mp h1).1
    · rwa [if_neg hc] at h1

theorem not_mem_cleanupTemp_of_mem (l : List String) :
    ∀ fs p, p ∈ l → p ∉ cleanupTemp l fs := by
  induction l with
  | nil => intro fs p h; cases h
  | cons q rest ih =>
    intro fs p hp hmem
    rcases List.mem_cons.mp hp with rfl | htl
    · have h1 := mem_of_mem_cleanupTemp rest _ p hmem
      by_cases hc : fs.contains p
      · rw [if_pos hc] at h1
        have := (List.mem_filter.mp h1).2
        simp at this
      · rw [if_neg hc] at h1
        exact hc (by simpa using h1)
    · exact ih _ p htl hmem

theorem upload_results_shape (attempt : List String → Except String AttemptResult)
    (tmpdir : String) (fs0 : List String) (files : List FileData) :
    ∃ er, (upload attempt tmpdir fs0 files).results
        = er ++ (files.filter (fun f => !isReportFile f)).map skippedResult
      ∧ er.map PerFileResult.fileName
        = (files.filter isReportFile).map FileData.fileName := by
  by_cases hemp : (files.filter isReportFile).isEmpty = true
  · refine ⟨[], by simp [upload, hemp], ?_⟩
    rw [List.isEmpty_iff.mp hemp]
    rfl
  · rcases hstage : (stageFiles tmpdir fs0 (files.filter isReportFile)).2.2
      with _ | msg
    · rcases hatt : attempt (stageFiles tmpdir fs0 (files.filter isReportFile)).1
        with e | r
      · exact ⟨(files.filter isReportFile).map (failedResult e),
          by simp [upload, hemp, hstage, hatt],
          by simp [List.map_map, Function.comp, failedResult]⟩
      · by_cases hs : r.success = true
        · exact ⟨(files.filter isReportFile).map uploadedResult,
            by simp [upload, hemp, hstage, hatt, hs],
            by simp [List.map_map, Function.comp, uploadedResult]⟩
        · exact ⟨(files.filter isReportFile).map
              (failedResult (r.error.getD "Batch upload failed")),
            by simp [upload, hemp, hstage, hatt, hs],
            by simp [List.map_map, Function.comp, failedResult]⟩
    · exact ⟨(files.filter isReportFile).map (failedResult msg),
        by simp [upload, hemp, hstage],
        by simp [List.map_map, Function.comp, failedResult]⟩

/-- C1: `upload` returns exactly one `PerFileResult` per input file —
`files.length` results in total, the multiset of result file names a
permutation of the input file names (so distinct input names give
distinct result names, with no omissions) — and the skipped
(ineligible) files' results are appended after the eligible files'
results. -/
theorem upload_one_result_per_input (attempt : List String → Except String AttemptResult)
    (tmpdir : String) (fs0 : List String) (files : List FileData) :
    (upload attempt tmpdir fs0 files).results.length = files.length ∧
    List.Perm
      ((upload attempt tmpdir fs0 files).results.map PerFileResult.fileName)
      (files.map FileData.fileName) ∧
    (∃ er, (upload attempt tmpdir fs0 files).results
        = er ++ (files.filter (fun f => !isReportFile f)).map skippedResult ∧
      er.map PerFileResult.fileName
        = (files.filter isReportFile).map FileData.fileName) ∧
    ((files.map FileData.fileName).Nodup →
      ((upload attempt tmpdir fs0 files).results.map PerFileResult.fileName).Nodup) := by
  obtain ⟨er, hres, hnames⟩ := upload_results_shape attempt tmpdir fs0 files
  have hmapnames : (upload attempt tmpdir fs0 files).results.map PerFileResult.fileName
      = (files.filter isReportFile).map FileData.fileName
        ++ (files.filter (fun f => !isReportFile f)).map FileData.fileName := by
    rw [hres, List.map_append, hnames]
    simp [List.map_map, Function.comp, skippedResult]
  have hperm : List.Perm
      ((upload attempt tmpdir fs0 files).results.map PerFileResult.fileName)
      (files.map FileData.fileName) := by
    rw [hmapnames, ← List.map_append]
    exact (List.filter_append_perm isReportFile files).map FileData.fileName
  refine ⟨?_, hperm, ⟨er, hres, hnames⟩, fun hnd => hperm.nodup_iff.mpr hnd⟩
  have := hperm.length_eq
  simpa [List.length_map] using this

/-- Witness for C1 at the concrete §8 batch. -/
theorem upload_one_result_per_input_witness :
    (upload attemptOk "/tmp" [] [fRep, fTxt]).results.length = 2 ∧
    ((upload attemptOk "/tmp" [] [fRep, fTxt]).results.map PerFileResult.fileName).Nodup :=
  ⟨(upload_one_result_per_input attemptOk "/tmp" [] [fRep, fTxt]).1,
   (upload_one_result_per_input attemptOk "/tmp" [] [fRep, fTxt]).2.2.2 (by decide)⟩

/-- C2: every ineligible file yields `{success := true, skipped := true}`
whatever the portal does (the attempt is universally quantified), and
when the eligible set is empty `upload` returns all inputs as
skipped-success without ever invoking `uploadToMediaShuttle` — so no
Session is acquired and no browser is launched. -/
theorem skipped_files_success_no_session (attempt : List String → Except String AttemptResult)
    (tmpdir : String) (fs0 : List String) (files : List FileData) :
    (∀ f ∈ files, isReportFile f = false →
      skippedResult f ∈ (upload attempt tmpdir fs0 files).results) ∧
    (files.filter isReportFile = [] →
      (upload attempt tmpdir fs0 files).results = files.map skippedResult ∧
      (upload attempt tmpdir fs0 files).attemptInvoked = false ∧
      (upload attempt tmpdir fs0 files).stagedPaths = []) := by
  constructor
  · intro f hf hne
    obtain ⟨er, hres, _⟩ := upload_results_shape attempt tmpdir fs0 files
    rw [hres]
    apply List.mem_append_right
    exact List.mem_map_of_mem skippedResult
      (List.mem_filter.mpr ⟨hf, by simp [hne]⟩)
  · intro hnil
    have hall : ∀ f ∈ files, isReportFile f = false := by
      intro f hf
      simpa using List.filter_eq_nil_iff.mp hnil f hf
    have hfull : files.filter (fun f => !isReportFile f) = files :=
      List.filter_eq_self.mpr (fun f hf => by simp [hall f hf])
    have hemp : (files.filter isReportFile).isEmpty = true := by simp [hnil]
    refine ⟨?_, ?_, ?_⟩ <;> simp [upload, hemp, hfull]

/-- Witness for C2 on an all-ineligible batch against a failing portal. -/
theorem skipped_files_success_no_session_witness :
    skippedResult fTxt ∈ (upload attemptFail "/tmp" [] [fTxt]).results ∧
    (upload attemptFail "/tmp" [] [fTxt]).results = [fTxt].map skippedResult ∧
    (upload attemptFail "/tmp" [] [fTxt]).attemptInvoked = false :=
  ⟨(skipped_files_success_no_session attemptFail "/tmp" [] [fTxt]).1 fTxt (by decide) (by decide),
   ((skipped_files_success_no_session attemptFail "/tmp" [] [fTxt]).2 (by decide)).1,
   ((skipped_files_success_no_session attemptFail "/tmp" [] [fTxt]).2 (by decide)).2.1⟩

/-- C3: for a non-empty eligible batch, if the attempt fails at any step
(the batch result has `success := false`, or the call throws), every
eligible file receives `success := false` with the same error message,
while every skipped file still gets `{success := true, skipped := true}`. -/
theorem batch_failure_uniform (attempt : List String → Except String AttemptResult)
    (tmpdir : String) (fs0 : List String) (files : List FileData)
    (hne : files.filter isReportFile ≠ [])
    (hdata : ∀ f ∈ files.filter isReportFile, f.data.isSome)
    (hfail : (∃ e, attempt (stagedPathsOf tmpdir files) = .error e) ∨
             (∃ r, attempt (stagedPathsOf tmpdir files) = .ok r ∧
                r.success = false)) :
    (upload attempt tmpdir fs0 files).attemptInvoked = true ∧
    ∃ msg, (upload attempt tmpdir fs0 files).results
        = (files.filter isReportFile).map (failedResult msg)
          ++ (files.filter (fun f => !isReportFile f)).map skippedResult := by
  have hemp : ¬ (files.filter isReportFile).isEmpty = true := by
    simp [List.isEmpty_iff, hne]
  have hstage := stageFiles_all_data tmpdir (files.filter isReportFile) hdata fs0
  have hpaths : (stageFiles tmpdir fs0 (files.filter isReportFile)).1
      = stagedPathsOf tmpdir files := hstage.1
  rcases hfail with ⟨e, hatt⟩ | ⟨r, hatt, hs⟩
  · exact ⟨by simp [upload, hemp, hstage.2, hpaths, hatt],
      e, by simp [upload, hemp, hstage.2, hpaths, hatt]⟩
  · exact ⟨by simp [upload, hemp, hstage.2, hpaths, hatt, hs],
      r.error.getD "Batch upload failed",
      by simp [upload, hemp, hstage.2, hpaths, hatt, hs]⟩

/-- Witness for C3 at a concrete failing attempt. -/
theorem batch_failure_uniform_witness :
    (upload attemptFail "/tmp" [] [fRep, fTxt]).attemptInvoked = true ∧
    ∃ msg, (upload attemptFail "/tmp" [] [fRep, fTxt]).results
        = ([fRep, fTxt].filter isReportFile).map (failedResult msg)
          ++ ([fRep, fTxt].filter (fun f => !isReportFile f)).map skippedResult :=
  batch_failure_uniform attemptFail "/tmp" [] [fRep, fTxt] (by decide) (by decide)
    (Or.inr ⟨_, rfl, rfl⟩)

/-- C7: when some eligible file is missing byte content, the batch fails
fast at staging: `uploadToMediaShuttle` is never invoked (no Session, no
browser work), every eligible file fails with the staging error naming the
first data-less file, and no staged temp file is left behind. -/
theorem staging_failure_fails_fast (attempt : List String → Except String AttemptResult)
    (tmpdir : String) (fs0 : List String) (files : List FileData) (g : FileData)
    (hmiss : (files.filter isReportFile).find? (fun f => f.data.isNone) = some g) :
    (upload attempt tmpdir fs0 files).attemptInvoked = false ∧
    (upload attempt tmpdir fs0 files).results
      = (files.filter isReportFile).map
          (failedResult ("File data is missing for " ++ g.fileName))
        ++ (files.filter (fun f => !isReportFile f)).map skippedResult ∧
    ∀ p ∈ (upload attempt tmpdir fs0 files).stagedPaths,
      p ∉ (upload attempt tmpdir fs0 files).fsFinal := by
  have hne : files.filter isReportFile ≠ [] := by
    intro h; rw [h] at hmiss; simp at hmiss
  have hemp : ¬ (files.filter isReportFile).isEmpty = true := by
    simp [List.isEmpty_iff, hne]
  have herr := stageFiles_first_missing tmpdir _ g hmiss fs0
  refine ⟨by simp [upload, hemp, herr], by simp [upload, hemp, herr], ?_⟩
  have hproj1 : (upload attempt tmpdir fs0 files).stagedPaths
      = (stageFiles tmpdir fs0 (files.filter isReportFile)).1 := by
    simp [upload, hemp, herr]
  have hproj2 : (upload attempt tmpdir fs0 files).fsFinal
      = cleanupTemp (stageFiles tmpdir fs0 (files.filter isReportFile)).1
          (stageFiles tmpdir fs0 (files.filter isReportFile)).2.1 := by
    simp [upload, hemp, herr]
  rw [hproj1, hproj2]
  intro p hp
  exact not_mem_cleanupTemp_of_mem _ _ p hp

/-- Witness for C7 at a concrete data-less eligible file. -/
theorem staging_failure_fails_fast_witness :
    (upload attemptOk "/tmp" [] [fNoData, fTxt]).attemptInvoked = false ∧
    (upload attemptOk "/tmp" [] [fNoData, fTxt]).results
      = ([fNoData, fTxt].filter isReportFile).map
          (failedResult ("File data is missing for " ++ fNoData.fileName))
        ++ ([fNoData, fTxt].filter (fun f => !isReportFile f)).map skippedResult :=
  ⟨(staging_failure_fails_fast attemptOk "/tmp" [] [fNoData, fTxt] fNoData (by decide)).1,
   (staging_failure_fails_fast attemptOk "/tmp" [] [fNoData, fTxt] fNoData (by decide)).2.1⟩

/-- C8 counterexample: staged paths are not uniquely named.  Two eligible
files of one batch that share a file name are staged at the same path
(`tmpdir/fileName` is deterministic), and a second, distinct invocation
sharing the file name stages at that same path as well. -/
theorem staged_path_collision :
    (upload attemptOk "/tmp" [] dupBatchA).stagedPaths
      = ["/tmp/x_Report.docx", "/tmp/x_Report.docx"] ∧
    ¬ (upload attemptOk "/tmp" [] dupBatchA).stagedPaths.Nodup ∧
    "/tmp/x_Report.docx" ∈ (upload attemptOk "/tmp" [] dupBatchA).stagedPaths ∧
    "/tmp/x_Report.docx" ∈ (upload attemptOk "/tmp" [] dupBatchB).stagedPaths := by
  exact ⟨rfl, by decide, by decide, by decide⟩

/-- C8 (amended): each eligible file is staged at the deterministic path
`tmpdir/fileName`; within one invocation staged paths are duplicate-free
provided the eligible file names are distinct, and when every eligible
file carries data the staged paths are exactly `stagedPathsOf`. -/
theorem staged_paths_deterministic_nodup (attempt : List String → Except String AttemptResult)
    (tmpdir : String) (fs0 : List String) (files : List FileData)
    (hnod : ((files.filter isReportFile).map FileData.fileName).Nodup) :
    (upload attempt tmpdir fs0 files).stagedPaths.Nodup ∧
    ((∀ f ∈ files.filter isReportFile, f.data.isSome) →
      (upload attempt tmpdir fs0 files).stagedPaths
        = stagedPathsOf tmpdir files) := by
  have hinj : Function.Injective (fun n => tmpdir ++ "/" ++ n) := by
    intro a b h
    have hd := congrArg String.data h
    simp only [String.data_append] at hd
    exact String.ext (List.append_cancel_left hd)
  have hmapnodup : ((files.filter isReportFile).map (tempPathFor tmpdir)).Nodup := by
    have heq : (files.filter isReportFile).map (tempPathFor tmpdir)
        = ((files.filter isReportFile).map FileData.fileName).map
            (fun n => tmpdir ++ "/" ++ n) := by
      simp [List.map_map, Function.comp, tempPathFor]
    rw [heq]
    exact hnod.map hinj
  have hsub : List.Sublist
      ((stageFiles tmpdir fs0 (files.filter isReportFile)).1)
      ((files.filter isReportFile).map (tempPathFor tmpdir)) := by
    rw [stageFiles_paths_takeWhile]
    exact (List.takeWhile_sublist _).map _
  have hnodup_st := hmapnodup.sublist hsub
  constructor
  · by_cases hemp : (files.filter isReportFile).isEmpty = true
    · simp [upload, hemp]
    · rcases hstage : (stageFiles tmpdir fs0 (files.filter isReportFile)).2.2
        with _ | msg
      · rcases hatt : attempt (stageFiles tmpdir fs0 (files.filter isReportFile)).1
          with e | r
        · simpa [upload, hemp, hstage, hatt] using hnodup_st
        · by_cases hs : r.success = true <;>
            simpa [upload, hemp, hstage, hatt, hs] using hnodup_st
      · simpa [upload, hemp, hstage] using hnodup_st
  · intro hdata
    have h1 := stageFiles_all_data tmpdir (files.filter isReportFile) hdata fs0
    by_cases hemp : (files.filter isReportFile).isEmpty = true
    · have : files.filter isReportFile = [] := List.isEmpty_iff.mp hemp
      simp [upload, hemp, stagedPathsOf, this]
    · rcases hatt : attempt ((files.filter isReportFile).map (tempPathFor tmpdir))
        with e | r
      · simp [upload, hemp, h1.2, h1.1, hatt, stagedPathsOf]
      · by_cases hs : r.success = true <;>
          simp [upload, hemp, h1.2, h1.1, hatt, hs, stagedPathsOf]

/-- Witness for the amended C8 at distinct eligible names. -/
theorem staged_paths_deterministic_nodup_witness :
    (upload attemptOk "/tmp" [] [fRep, fRep2, fTxt]).stagedPaths.Nodup ∧
    (upload attemptOk "/tmp" [] [fRep, fRep2, fTxt]).stagedPaths
      = stagedPathsOf "/tmp" [fRep, fRep2, fTxt] :=
  ⟨(staged_paths_deterministic_nodup attemptOk "/tmp" [] [fRep, fRep2, fTxt] (by decide)).1,
   (staged_paths_deterministic_nodup attemptOk "/tmp" [] [fRep, fRep2, fTxt] (by decide)).2 (by decide)⟩
